import Mathlib

/-!
Verification development for the video backend (app/video.py, app/minio_client.py,
app/google_auth.py, app/ai.py).

Modelling conventions:
- Python strings are embedded as `List Char` (named `Str`), so that the string
  operations the code uses (endswith, replace-all, membership, sorting) are
  executable and provable.
- The in-memory task map `TASKS` is an association list from task id to task;
  Python dict assignment and in-place mutation of a task's status field are
  explicit functions (`insertTask`, `setStatus`).
- Object storage holds keys of the shape user_id/filename; since every writer in
  app/minio_client.py produces exactly one slash, a key is modelled as the pair
  (namespace, basename), and the prefix filter plus split-on-slash of
  list_user_videos becomes equality on the first component.
- Network and storage calls that can raise are modelled by explicit Booleans
  (the call succeeded or raised); an HTTP endpoint that never propagates an
  exception is a total Lean function, and one that can return an error status
  returns `Except`.
-/

namespace VideoApp

abbrev Str := List Char

/-- Task status values used by app/video.py. -/
inductive Status
  | QUEUED
  | QUEUED_FOR_AI
  | FAILED
  | DONE
deriving DecidableEq, Repr

/-- One entry of the TASKS dict: status and user_id fields (app/video.py line 81). -/
structure Task where
  status : Status
  user_id : Str
deriving DecidableEq, Repr

/-- The module-level TASKS dict (app/video.py line 48), as an association list. -/
abbrev TaskMap := List (Str × Task)

/-- Object storage contents: (user namespace, object basename) pairs. -/
abbrev Storage := List (Str × Str)

/-- Python dict assignment TASKS[task_id] = v: replace in place when the key is
present, append otherwise. -/
def insertTask (m : TaskMap) (k : Str) (v : Task) : TaskMap :=
  if (m.lookup k).isSome then m.map (fun p => if p.1 = k then (p.1, v) else p)
  else m ++ [(k, v)]

/-- In-place mutation of a task's status field through the dict alias
(task["status"] = s in app/video.py). -/
def setStatus (m : TaskMap) (k : Str) (s : Status) : TaskMap :=
  m.map (fun p => if p.1 = k then (p.1, { p.2 with status := s }) else p)

/-- minio fput_object: adds the key to the bucket (overwrite keeps one copy). -/
def putObject (storage : Storage) (ns base : Str) : Storage :=
  if (ns, base) ∈ storage then storage else storage ++ [(ns, base)]

/-- Lexicographic order on character lists, as Python compares strings. -/
def lexLe : Str → Str → Bool
  | [], _ => true
  | _ :: _, [] => false
  | a :: as, b :: bs => if a < b then true else if a = b then lexLe as bs else false

/-- Insertion into a descending-sorted list. -/
def insertDesc (x : Str) : List Str → List Str
  | [] => [x]
  | y :: ys => if lexLe y x then x :: y :: ys else y :: insertDesc x ys

/-- Python sorted(results, reverse=True). -/
def sortDesc : List Str → List Str
  | [] => []
  | x :: xs => insertDesc x (sortDesc xs)

/-- Fuel-driven worker for replace-all; the initial fuel (the list length) is
enough because each step consumes at least one character of a non-empty
pattern occurrence or copies one character. -/
def replaceAllAux (pat rep : Str) : Nat → Str → Str
  | 0, l => l
  | _ + 1, [] => []
  | fuel + 1, c :: cs =>
    if pat.isPrefixOf (c :: cs) then
      rep ++ replaceAllAux pat rep fuel ((c :: cs).drop pat.length)
    else
      c :: replaceAllAux pat rep fuel cs

/-- Python str.replace(old, new) for non-empty old: replaces every occurrence,
scanning left to right. -/
def replaceAll (pat rep l : Str) : Str := replaceAllAux pat rep l.length l

def mp4Suffix : Str := ".mp4".data

def processedSuffix : Str := "_processed".data

def slash : Str := "/".data

/-- app/minio_client.py list_user_videos (lines 72-93): lists objects under the
user's namespace, keeps basenames ending in .mp4, strips every occurrence of
".mp4" (Python replace removes all occurrences), and sorts descending. -/
def list_user_videos (storage : Storage) (user_id : Str) : List Str :=
  sortDesc ((storage.filter
      (fun o => o.1 == user_id && mp4Suffix.isSuffixOf o.2)).map
    (fun o => replaceAll mp4Suffix [] o.2))

/-- Post-processing job descriptor pushed to the Redis queue
(app/video.py lines 113-118). -/
structure Job where
  task_id : Str
  user_id : Str
  input_key : Str
  output_key : Str
deriving DecidableEq, Repr

/-- Outcome flags for the fallible steps of the callback handler: the result
download (httpx get + write), the original upload (upload_video), and the queue
publish (redis2.lpush). false means the step raised. -/
structure CallbackEnv where
  downloadOk : Bool
  uploadOk : Bool
  publishOk : Bool
deriving DecidableEq, Repr

/-- Observable outcome of one video_callback request: the new task map and
storage, everything pushed to the queue, whether the result was downloaded,
whether a scratch file was left behind, and the HTTP body code (the endpoint
never raises). -/
structure CallbackResult where
  tasks : TaskMap
  storage : Storage
  published : List Job
  downloaded : Bool
  scratchLeaked : Bool
  code : Nat
deriving DecidableEq, Repr

/-- app/video.py video_callback (lines 91-130). A missing taskId or unknown task
or empty resultUrls is acknowledged with code 200 and ignored. Otherwise a
scratch file is created, the first url downloaded, the original uploaded, a job
published and status set to QUEUED_FOR_AI; any failure sets status FAILED; the
finally block always removes the scratch file, and the endpoint always returns
code 200. -/
def video_callback (tasks : TaskMap) (storage : Storage) (env : CallbackEnv)
    (task_id : Option Str) (urls : List Str) : CallbackResult :=
  match task_id with
  | none =>
    { tasks := tasks, storage := storage, published := [], downloaded := false,
      scratchLeaked := false, code := 200 }
  | some tid =>
    match tasks.lookup tid with
    | none =>
      { tasks := tasks, storage := storage, published := [], downloaded := false,
        scratchLeaked := false, code := 200 }
    | some task =>
      if urls = [] then
        { tasks := tasks, storage := storage, published := [], downloaded := false,
          scratchLeaked := false, code := 200 }
      else if env.downloadOk = false then
        { tasks := setStatus tasks tid .FAILED, storage := storage, published := [],
          downloaded := false, scratchLeaked := false, code := 200 }
      else if env.uploadOk = false then
        { tasks := setStatus tasks tid .FAILED, storage := storage, published := [],
          downloaded := true, scratchLeaked := false, code := 200 }
      else if env.publishOk = false then
        { tasks := setStatus tasks tid .FAILED,
          storage := putObject storage task.user_id (tid ++ mp4Suffix), published := [],
          downloaded := true, scratchLeaked := false, code := 200 }
      else
        { tasks := setStatus tasks tid .QUEUED_FOR_AI,
          storage := putObject storage task.user_id (tid ++ mp4Suffix),
          published := [{ task_id := tid, user_id := task.user_id,
                          input_key := task.user_id ++ slash ++ tid ++ mp4Suffix,
                          output_key := task.user_id ++ slash ++ tid ++ processedSuffix
                            ++ mp4Suffix }],
          downloaded := true, scratchLeaked := false, code := 200 }

/-- Response of the status endpoint together with the task map it leaves behind. -/
structure StatusResult where
  tasks : TaskMap
  task_id : Str
  status : Status
deriving DecidableEq, Repr

/-- app/video.py get_status (lines 158-177). Unknown task reports DONE; a FAILED
task reports FAILED before any storage access; otherwise, when the stored
user_id is truthy, the storage listing is consulted (listOk = false models the
listing raising, absorbed by except-pass) and the status is flipped to DONE
when the processed basename is in the listing; the response reads the possibly
mutated status. -/
def get_status (tasks : TaskMap) (storage : Storage) (listOk : Bool)
    (task_id : Str) : StatusResult :=
  match tasks.lookup task_id with
  | none => { tasks := tasks, task_id := task_id, status := .DONE }
  | some task =>
    if task.status = .FAILED then
      { tasks := tasks, task_id := task_id, status := .FAILED }
    else if task.user_id ≠ [] then
      if listOk then
        if (task_id ++ processedSuffix) ∈ list_user_videos storage task.user_id then
          { tasks := setStatus tasks task_id .DONE, task_id := task_id, status := .DONE }
        else
          { tasks := tasks, task_id := task_id, status := task.status }
      else
        { tasks := tasks, task_id := task_id, status := task.status }
    else
      { tasks := tasks, task_id := task_id, status := task.status }

/-- app/video.py generate_video (lines 56-86). providerOk models
r.raise_for_status on the provider call; providerTaskId models
data.get("data").get("taskId"). A missing or falsy (empty) taskId raises
HTTPException 502; otherwise the task is registered QUEUED for the caller and
returned. -/
def generate_video (tasks : TaskMap) (user_id : Str) (providerOk : Bool)
    (providerTaskId : Option Str) : Except Nat (TaskMap × Str × Status) :=
  if providerOk = false then .error 500
  else
    match providerTaskId with
    | none => .error 502
    | some tid =>
      if tid = [] then .error 502
      else .ok (insertTask tasks tid { status := .QUEUED, user_id := user_id }, tid, .QUEUED)

/-- Observable outcome of get_thumbnail: whether scratch files were created,
whether they were left behind at exit, whether a regenerated thumbnail was
uploaded, and whether the endpoint returned a stream (ok) or let an exception
propagate. -/
structure ThumbResult where
  scratchCreated : Bool
  scratchLeaked : Bool
  uploadedThumb : Bool
  ok : Bool
deriving DecidableEq, Repr

/-- app/video.py get_thumbnail (lines 204-236). thumbExists: the first
get_thumbnail_stream call succeeds. On the regeneration path two scratch files
are created, then the video is fetched, ffmpeg runs, the thumbnail is uploaded
and re-fetched; the two os.remove calls sit at the end of the except block with
no try/finally, so they run only when every step succeeded. -/
def get_thumbnail (thumbExists videoOk ffmpegOk uploadOk thumbAgainOk : Bool) :
    ThumbResult :=
  if thumbExists then
    { scratchCreated := false, scratchLeaked := false, uploadedThumb := false, ok := true }
  else if videoOk = false then
    { scratchCreated := true, scratchLeaked := true, uploadedThumb := false, ok := false }
  else if ffmpegOk = false then
    { scratchCreated := true, scratchLeaked := true, uploadedThumb := false, ok := false }
  else if uploadOk = false then
    { scratchCreated := true, scratchLeaked := true, uploadedThumb := false, ok := false }
  else if thumbAgainOk = false then
    { scratchCreated := true, scratchLeaked := true, uploadedThumb := true, ok := false }
  else
    { scratchCreated := true, scratchLeaked := false, uploadedThumb := true, ok := true }

/-- Observable outcome of upload_youtube: scratch file accounting plus the HTTP
outcome (error status, or the returned youtube video id). -/
structure UploadResult where
  scratchCreated : Bool
  scratchLeaked : Bool
  outcome : Except Nat Str
deriving Repr

/-- app/video.py upload_youtube (lines 249-318). An invalid type raises 400
before the scratch file exists; afterwards streaming the source, building the
service and executing the insert can each fail, turned into HTTPException 500 by
the except block; the finally block removes the scratch file on every path. -/
def upload_youtube (videoTypeValid streamOk serviceOk insertOk : Bool)
    (videoId : Str) : UploadResult :=
  if videoTypeValid = false then
    { scratchCreated := false, scratchLeaked := false, outcome := .error 400 }
  else if streamOk = false then
    { scratchCreated := true, scratchLeaked := false, outcome := .error 500 }
  else if serviceOk = false then
    { scratchCreated := true, scratchLeaked := false, outcome := .error 500 }
  else if insertOk = false then
    { scratchCreated := true, scratchLeaked := false, outcome := .error 500 }
  else
    { scratchCreated := true, scratchLeaked := false, outcome := .ok videoId }

/-- A database timestamp: a point value plus an optional timezone offset
(none models a naive datetime, some 0 models tzinfo utc). -/
structure DBTimestamp where
  seconds : Int
  tzinfo : Option Int
deriving DecidableEq, Repr

/-- One oauth_tokens row as selected in app/google_auth.py lines 60-67. -/
structure OAuthRow where
  access_token : Str
  refresh_token : Str
  expires_at : Option DBTimestamp
deriving DecidableEq, Repr

/-- The google.oauth2 Credentials object as constructed at lines 82-89 of
app/google_auth.py; expiry is a constructor keyword whose default is none. -/
structure Credentials where
  token : Str
  refresh_token : Str
  token_uri : Str
  client_id : Str
  client_secret : Str
  scopes : List Str
  expiry : Option DBTimestamp
deriving DecidableEq, Repr

def GOOGLE_TOKEN_URL : Str := "https://oauth2.googleapis.com/token".data

def YOUTUBE_SCOPES : List Str := ["https://www.googleapis.com/auth/youtube.upload".data]

/-- Lines 74-80 of app/google_auth.py: a naive stored expiry gets
tzinfo = timezone.utc attached; an aware one is kept; a missing one stays none. -/
def normalized_expiry (expires_at : Option DBTimestamp) : Option DBTimestamp :=
  match expires_at with
  | none => none
  | some t => if t.tzinfo = none then some { t with tzinfo := some 0 } else some t

/-- app/google_auth.py get_youtube_service (lines 58-96): looks up the user's
token row, computes the timezone-normalized expiry (lines 74-80), then calls
Credentials WITHOUT the expiry keyword (lines 82-89), so the credential carries
the constructor default none rather than the normalized value. -/
def get_youtube_service (db : List (Str × OAuthRow)) (client_id client_secret : Str)
    (user_id : Str) : Except Str Credentials :=
  match db.lookup user_id with
  | none => .error "Google OAuth token not found".data
  | some row =>
    let _expiry := normalized_expiry row.expires_at
    .ok { token := row.access_token, refresh_token := row.refresh_token,
          token_uri := GOOGLE_TOKEN_URL, client_id := client_id,
          client_secret := client_secret, scopes := YOUTUBE_SCOPES, expiry := none }

/-- One row of the ai_final_videos table (the columns insert_final_video writes). -/
structure FinalVideoRow where
  video_key : Str
  user_id : Str
  title : Option Str
  description : Option Str
deriving DecidableEq, Repr

/-- app/ai.py insert_final_video (lines 13-46): INSERT ... ON CONFLICT
(video_key) DO NOTHING; a database error rolls back and re-raises RuntimeError
(dbOk = false). -/
def insert_final_video (table : List FinalVideoRow) (dbOk : Bool)
    (video_key user_id : Str) (title description : Option Str) :
    Except Str (List FinalVideoRow) :=
  if dbOk = false then .error "insert_final_video failed".data
  else if table.any (fun r => r.video_key == video_key) then .ok table
  else .ok (table ++ [{ video_key := video_key, user_id := user_id,
                        title := title, description := description }])

/-- Sample values used by the concrete witnesses and counterexamples below. -/
def uSample : Str := "u1".data

def tidSample : Str := "abc123".data

def urlSample : Str := "http-result-url".data

def taskDone : Task := { status := .DONE, user_id := uSample }

def taskQueued : Task := { status := .QUEUED, user_id := uSample }

def taskQueuedAI : Task := { status := .QUEUED_FOR_AI, user_id := uSample }

def taskFailed : Task := { status := .FAILED, user_id := uSample }

def envAllOk : CallbackEnv := { downloadOk := true, uploadOk := true, publishOk := true }

def envUploadFails : CallbackEnv := { downloadOk := true, uploadOk := false, publishOk := true }

def naiveExpiryRow : OAuthRow :=
  { access_token := "at".data, refresh_token := "rt".data,
    expires_at := some { seconds := 100, tzinfo := none } }

/-! Helper lemmas about the embedding. -/

theorem lookup_cons {α : Type} (a pk : Str) (pv : α) (l : List (Str × α)) :
    List.lookup a ((pk, pv) :: l) = if a = pk then some pv else List.lookup a l := by
  by_cases h : a = pk
  · simp [List.lookup, h]
  · have hb : (a == pk) = false := beq_eq_false_iff_ne.mpr h
    simp [List.lookup, hb, h]

theorem lookup_append {α : Type} (l₁ l₂ : List (Str × α)) (a : Str) :
    (l₁ ++ l₂).lookup a =
      match l₁.lookup a with | some v => some v | none => l₂.lookup a := by
  induction l₁ with
  | nil => simp
  | cons p l ih =>
    obtain ⟨pk, pv⟩ := p
    rw [List.cons_append, lookup_cons, lookup_cons]
    by_cases h : a = pk
    · simp [h]
    · simp [h, ih]

theorem setStatus_cons (pk : Str) (pv : Task) (m : TaskMap) (tid : Str) (s : Status) :
    setStatus ((pk, pv) :: m) tid s =
      (if pk = tid then (pk, { pv with status := s }) else (pk, pv)) :: setStatus m tid s := rfl

theorem lookup_setStatus (m : TaskMap) (tid : Str) (s : Status) (k : Str) :
    (setStatus m tid s).lookup k =
      (m.lookup k).map (fun t => if k = tid then { t with status := s } else t) := by
  induction m with
  | nil => rfl
  | cons p m ih =>
    obtain ⟨pk, pv⟩ := p
    rw [setStatus_cons, lookup_cons]
    by_cases h1 : pk = tid
    · rw [if_pos h1]
      by_cases h2 : k = pk
      · simp [lookup_cons, h2, h1]
      · simp only [lookup_cons, if_neg h2, ih]
    · rw [if_neg h1]
      by_cases h2 : k = pk
      · have hkt : ¬k = tid := by rw [h2]; exact h1
        simp [lookup_cons, h2, hkt, h1]
      · simp only [lookup_cons, if_neg h2, ih]

theorem keys_setStatus (m : TaskMap) (tid : Str) (s : Status) :
    (setStatus m tid s).map Prod.fst = m.map Prod.fst := by
  induction m with
  | nil => rfl
  | cons p m ih =>
    obtain ⟨pk, pv⟩ := p
    rw [setStatus_cons]
    by_cases h : pk = tid <;> simp [h, ih]

theorem lookup_replaceKey (m : TaskMap) (k : Str) (v : Task) (k' : Str) :
    (m.map (fun p => if p.1 = k then (p.1, v) else p)).lookup k' =
      if k' = k then (m.lookup k).map (fun _ => v) else m.lookup k' := by
  induction m with
  | nil => simp
  | cons p m ih =>
    obtain ⟨pk, pv⟩ := p
    by_cases h1 : pk = k
    · by_cases h2 : k' = pk
      · have hk : k' = k := h2.trans h1
        simp [lookup_cons, h1, h2, hk]
      · have hk : ¬k' = k := fun hh => h2 (hh.trans h1.symm)
        simp [lookup_cons, h1, h2, hk, ih]
    · by_cases h2 : k' = pk
      · have hk : ¬k' = k := fun hh => h1 (h2.symm.trans hh)
        have hk2 : ¬k = pk := fun hh => h1 hh.symm
        simp [lookup_cons, h1, h2, hk, hk2]
      · have hk2 : ¬k = pk := fun hh => h1 hh.symm
        by_cases hk : k' = k
        · subst hk
          simp [lookup_cons, h1, h2, hk2, ih]
        · simp [lookup_cons, h1, h2, hk, hk2, ih]

theorem lookup_insertTask (m : TaskMap) (k : Str) (v : Task) (k' : Str) :
    (insertTask m k v).lookup k' = if k' = k then some v else m.lookup k' := by
  unfold insertTask
  by_cases hm : (m.lookup k).isSome
  · rw [if_pos hm, lookup_replaceKey]
    by_cases hk : k' = k
    · rcases Option.isSome_iff_exists.mp hm with ⟨t, ht⟩
      simp [hk, ht]
    · simp [hk]
  · rw [if_neg hm, lookup_append]
    have h0 : m.lookup k = none := Option.not_isSome_iff_eq_none.mp hm
    by_cases hk : k' = k
    · subst hk
      simp [h0, lookup_cons]
    · by_cases hv : (m.lookup k').isSome
      · rcases Option.isSome_iff_exists.mp hv with ⟨t, ht⟩
        simp [ht, hk]
      · have h1 : m.lookup k' = none := Option.not_isSome_iff_eq_none.mp hv
        simp [h1, hk, lookup_cons]

theorem mem_insertDesc (x y : Str) (l : List Str) :
    x ∈ insertDesc y l ↔ x = y ∨ x ∈ l := by
  induction l with
  | nil => simp [insertDesc]
  | cons z zs ih =>
    simp only [insertDesc]
    split
    · simp
    · simp [ih]
      tauto

theorem mem_sortDesc (x : Str) (l : List Str) : x ∈ sortDesc l ↔ x ∈ l := by
  induction l with
  | nil => simp [sortDesc]
  | cons y ys ih => simp [sortDesc, mem_insertDesc, ih]

theorem mem_list_user_videos (storage : Storage) (uid name : Str) :
    name ∈ list_user_videos storage uid ↔
      ∃ p, p ∈ storage ∧ p.1 = uid ∧ mp4Suffix.isSuffixOf p.2 = true ∧
        replaceAll mp4Suffix [] p.2 = name := by
  unfold list_user_videos
  rw [mem_sortDesc]
  simp only [List.mem_map, List.mem_filter, Bool.and_eq_true, beq_iff_eq]
  constructor
  · rintro ⟨p, ⟨hp, h1, h2⟩, h3⟩
    exact ⟨p, hp, h1, h2, h3⟩
  · rintro ⟨p, hp, h1, h2, h3⟩
    exact ⟨p, ⟨hp, h1, h2⟩, h3⟩

theorem processed_mem_iff (storage : Storage) (uid tid : Str)
    (hname : mp4Suffix.isSuffixOf (tid ++ processedSuffix ++ mp4Suffix) = true ∧
      replaceAll mp4Suffix [] (tid ++ processedSuffix ++ mp4Suffix) = tid ++ processedSuffix)
    (hwf : ∀ p ∈ storage, mp4Suffix.isSuffixOf p.2 = true →
      replaceAll mp4Suffix [] p.2 = tid ++ processedSuffix →
      p.2 = tid ++ processedSuffix ++ mp4Suffix) :
    (tid ++ processedSuffix) ∈ list_user_videos storage uid ↔
      (uid, tid ++ processedSuffix ++ mp4Suffix) ∈ storage := by
  rw [mem_list_user_videos]
  constructor
  · rintro ⟨⟨pu, pn⟩, hp, h1, h2, h3⟩
    have hn := hwf _ hp h2 h3
    simp only at h1 hn
    rw [← h1, ← hn]
    exact hp
  · intro hp
    exact ⟨(uid, tid ++ processedSuffix ++ mp4Suffix), hp, rfl, hname.1, hname.2⟩

theorem video_callback_tasks_eq (tasks : TaskMap) (storage : Storage)
    (env : CallbackEnv) (tid : Option Str) (urls : List Str) :
    (video_callback tasks storage env tid urls).tasks =
      match tid with
      | none => tasks
      | some t =>
        match tasks.lookup t with
        | none => tasks
        | some _ =>
          if urls = [] then tasks
          else if env.downloadOk && env.uploadOk && env.publishOk then
            setStatus tasks t .QUEUED_FOR_AI
          else setStatus tasks t .FAILED := by
  rcases tid with _ | t
  · rfl
  · rcases h : tasks.lookup t with _ | tk
    · simp [video_callback, h]
    · rcases env with ⟨d, u, p⟩
      by_cases hu : urls = [] <;> cases d <;> cases u <;> cases p <;>
        simp [video_callback, h, hu]

theorem video_callback_no_scratch_leak (tasks : TaskMap) (storage : Storage)
    (env : CallbackEnv) (tid : Option Str) (urls : List Str) :
    (video_callback tasks storage env tid urls).scratchLeaked = false := by
  rcases tid with _ | t
  · rfl
  · rcases h : tasks.lookup t with _ | tk
    · simp [video_callback, h]
    · rcases env with ⟨d, u, p⟩
      by_cases hu : urls = [] <;> cases d <;> cases u <;> cases p <;>
        simp [video_callback, h, hu]

theorem get_status_tasks_eq (tasks : TaskMap) (storage : Storage) (listOk : Bool)
    (tid : Str) :
    (get_status tasks storage listOk tid).tasks = tasks ∨
      (∃ t, tasks.lookup tid = some t ∧ t.status ≠ .FAILED ∧
        (get_status tasks storage listOk tid).tasks = setStatus tasks tid .DONE) := by
  rcases h : tasks.lookup tid with _ | t
  · left
    simp [get_status, h]
  · by_cases hF : t.status = .FAILED
    · left
      simp [get_status, h, hF]
    · by_cases hu : t.user_id = []
      · left
        simp [get_status, h, hF, hu]
      · by_cases hL : listOk = true
        · by_cases hm : (tid ++ processedSuffix) ∈ list_user_videos storage t.user_id
          · right
            exact ⟨t, rfl, hF, by simp [get_status, h, hF, hu, hL, hm]⟩
          · left
            simp [get_status, h, hF, hu, hL, hm]
        · left
          simp [get_status, h, hF, hu, hL]

theorem video_callback_tasks_shape (tasks : TaskMap) (storage : Storage)
    (env : CallbackEnv) (tid : Option Str) (urls : List Str) :
    (video_callback tasks storage env tid urls).tasks = tasks ∨
      ∃ tt s, (video_callback tasks storage env tid urls).tasks = setStatus tasks tt s := by
  have he := video_callback_tasks_eq tasks storage env tid urls
  rcases tid with _ | tt
  · left
    exact he
  · dsimp only at he
    rcases hq : tasks.lookup tt with _ | tq
    · rw [hq] at he
      left
      exact he
    · rw [hq] at he
      by_cases hu : urls = []
      · left
        rw [he]
        simp [hu]
      · right
        by_cases hok : (env.downloadOk && env.uploadOk && env.publishOk) = true
        · exact ⟨tt, .QUEUED_FOR_AI, by rw [he]; simp [hu, hok]⟩
        · exact ⟨tt, .FAILED, by rw [he]; simp [hu, hok]⟩

theorem setStatus_preserves (tasks : TaskMap) (tid : Str) (s : Status) (k : Str)
    (t : Task) (hk : tasks.lookup k = some t) :
    ∃ t', (setStatus tasks tid s).lookup k = some t' ∧ t'.user_id = t.user_id := by
  rw [lookup_setStatus, hk]
  by_cases h : k = tid
  · exact ⟨{ t with status := s }, by simp [h], rfl⟩
  · exact ⟨t, by simp [h], rfl⟩

/-! Claim theorems. -/

/-- C2: QueryStatus reports DONE for a task unknown to the in-memory map;
reports FAILED verbatim, independently of the storage contents, when the stored
status is FAILED; otherwise (known, non-FAILED, truthy user_id) it reports DONE
exactly when the processed artifact key is present in object storage, also
updating the stored status to DONE, and reports the stored status with the map
unchanged when the artifact is absent. hname and hwf exclude task ids and
stored basenames in which ".mp4" occurs in a position Python's replace-all
would also strip. -/
theorem get_status_reporting (tasks : TaskMap) (storage : Storage) (tid : Str)
    (hname : mp4Suffix.isSuffixOf (tid ++ processedSuffix ++ mp4Suffix) = true ∧
      replaceAll mp4Suffix [] (tid ++ processedSuffix ++ mp4Suffix) = tid ++ processedSuffix)
    (hwf : ∀ p ∈ storage, mp4Suffix.isSuffixOf p.2 = true →
      replaceAll mp4Suffix [] p.2 = tid ++ processedSuffix →
      p.2 = tid ++ processedSuffix ++ mp4Suffix) :
    (tasks.lookup tid = none →
      get_status tasks storage true tid = ⟨tasks, tid, .DONE⟩) ∧
    (∀ t, tasks.lookup tid = some t → t.status = .FAILED →
      ∀ (storage' : Storage) (listOk : Bool),
        get_status tasks storage' listOk tid = ⟨tasks, tid, .FAILED⟩) ∧
    (∀ t, tasks.lookup tid = some t → t.status ≠ .FAILED → t.user_id ≠ [] →
      (((t.user_id, tid ++ processedSuffix ++ mp4Suffix) ∈ storage →
          (get_status tasks storage true tid).status = .DONE ∧
          (get_status tasks storage true tid).tasks.lookup tid =
            some { t with status := .DONE }) ∧
       ((t.user_id, tid ++ processedSuffix ++ mp4Suffix) ∉ storage →
          get_status tasks storage true tid = ⟨tasks, tid, t.status⟩))) := by
  refine ⟨?_, ?_, ?_⟩
  · intro h
    simp [get_status, h]
  · intro t h hF storage' listOk
    simp [get_status, h, hF]
  · intro t h hne hu
    have hmem := processed_mem_iff storage t.user_id tid hname hwf
    constructor
    · intro hin
      have hm : (tid ++ processedSuffix) ∈ list_user_videos storage t.user_id :=
        hmem.mpr hin
      constructor
      · simp [get_status, h, hne, hu, hm]
      · simp [get_status, h, hne, hu, hm, lookup_setStatus]
    · intro hout
      have hm : (tid ++ processedSuffix) ∉ list_user_videos storage t.user_id :=
        fun c => hout (hmem.mp c)
      simp [get_status, h, hne, hu, hm]

theorem get_status_reporting_witness :
    (get_status [(tidSample, taskQueuedAI)]
        [(uSample, tidSample ++ processedSuffix ++ mp4Suffix)] true tidSample).status =
      .DONE ∧
    (get_status [(tidSample, taskQueuedAI)]
        [(uSample, tidSample ++ processedSuffix ++ mp4Suffix)] true
        tidSample).tasks.lookup tidSample = some { taskQueuedAI with status := .DONE } :=
  ((get_status_reporting [(tidSample, taskQueuedAI)]
      [(uSample, tidSample ++ processedSuffix ++ mp4Suffix)] tidSample (by decide)
      (by decide)).2.2 taskQueuedAI (by decide) (by decide) (by decide)).1 (by decide)

/-- C8: when the storage listing raises during QueryStatus for a known,
non-FAILED task, the handler reports the last stored status, leaves the task
map unchanged, and returns a normal response: the except-pass absorbs the
storage-layer error instead of propagating it. -/
theorem get_status_storage_error_fallback (tasks : TaskMap) (storage : Storage)
    (tid : Str) (t : Task) (hlk : tasks.lookup tid = some t)
    (hq : t.status ≠ .FAILED) :
    get_status tasks storage false tid = ⟨tasks, tid, t.status⟩ := by
  by_cases hu : t.user_id = [] <;> simp [get_status, hlk, hq, hu]

theorem get_status_storage_error_fallback_witness :
    get_status [(tidSample, taskQueued)] [] false tidSample =
      ⟨[(tidSample, taskQueued)], tidSample, .QUEUED⟩ :=
  get_status_storage_error_fallback [(tidSample, taskQueued)] [] tidSample taskQueued
    (by decide) (by decide)

/-- C6: a callback delivery whose taskId is missing or unknown to the in-memory
map, or whose resultUrls list is empty, changes no state, downloads nothing,
publishes no job, creates no scratch file, and is acknowledged with code 200. -/
theorem callback_ignores_unknown_or_empty (tasks : TaskMap) (storage : Storage)
    (env : CallbackEnv) (tid : Option Str) (urls : List Str)
    (h : (∀ s, tid = some s → tasks.lookup s = none) ∨ urls = []) :
    video_callback tasks storage env tid urls =
      { tasks := tasks, storage := storage, published := [], downloaded := false,
        scratchLeaked := false, code := 200 } := by
  rcases tid with _ | t
  · rfl
  · rcases h with h | h
    · simp [video_callback, h t rfl]
    · rcases hl : tasks.lookup t with _ | tk
      · simp [video_callback, hl]
      · simp [video_callback, hl, h]

theorem callback_ignores_unknown_or_empty_witness :
    video_callback [] [] envAllOk (some tidSample) [urlSample] =
      { tasks := [], storage := [], published := [], downloaded := false,
        scratchLeaked := false, code := 200 } :=
  callback_ignores_unknown_or_empty [] [] envAllOk (some tidSample) [urlSample]
    (Or.inl (fun s _ => rfl))

/-- C3: for a callback delivery for a known task with non-empty result urls,
failure of the download, the object-store upload, or the queue publish marks
the task FAILED, publishes no job, and the endpoint still acknowledges the
provider with code 200; the handler never propagates the error. -/
theorem callback_failure_sets_failed (tasks : TaskMap) (storage : Storage)
    (env : CallbackEnv) (tid : Str) (t : Task) (urls : List Str)
    (hlk : tasks.lookup tid = some t) (hurls : urls ≠ [])
    (hfail : env.downloadOk = false ∨ env.uploadOk = false ∨ env.publishOk = false) :
    (video_callback tasks storage env (some tid) urls).tasks.lookup tid =
        some { t with status := .FAILED } ∧
    (video_callback tasks storage env (some tid) urls).code = 200 ∧
    (video_callback tasks storage env (some tid) urls).published = [] := by
  rcases env with ⟨d, u, p⟩
  cases d <;> cases u <;> cases p <;>
    simp_all [video_callback, lookup_setStatus]

theorem callback_failure_sets_failed_witness :
    (video_callback [(tidSample, taskQueued)] [] envUploadFails (some tidSample)
        [urlSample]).tasks.lookup tidSample = some { taskQueued with status := .FAILED } ∧
    (video_callback [(tidSample, taskQueued)] [] envUploadFails (some tidSample)
        [urlSample]).code = 200 ∧
    (video_callback [(tidSample, taskQueued)] [] envUploadFails (some tidSample)
        [urlSample]).published = [] :=
  callback_failure_sets_failed [(tidSample, taskQueued)] [] envUploadFails tidSample
    taskQueued [urlSample] (by decide) (by decide) (by decide)

/-- C1 counterexample: video_callback applies no status guard, so a successful
callback delivery for a task already DONE moves it back to QUEUED_FOR_AI — an
operation does move a task out of DONE, refuting the claimed transition system. -/
theorem done_task_leaves_done :
    (video_callback [(tidSample, taskDone)] [] envAllOk (some tidSample)
        [urlSample]).tasks.lookup tidSample =
      some { status := .QUEUED_FOR_AI, user_id := uSample } := by
  decide

/-- C1 (amended): get_status changes a stored status only from a non-FAILED
status to DONE and only for the queried task; generate_video registers the
provider's task id as QUEUED; but video_callback carries no status guard: for a
known task with non-empty result urls it rewrites the status to QUEUED_FOR_AI
or FAILED regardless of the previous status, so DONE and FAILED tasks can
return to QUEUED_FOR_AI; every other entry is left untouched. -/
theorem status_transition_characterization (tasks : TaskMap) (storage : Storage) :
    (∀ (listOk : Bool) (qid k : Str) (t : Task), tasks.lookup k = some t →
      (get_status tasks storage listOk qid).tasks.lookup k = some t ∨
        (k = qid ∧ t.status ≠ .FAILED ∧
          (get_status tasks storage listOk qid).tasks.lookup k =
            some { t with status := .DONE })) ∧
    (∀ (env : CallbackEnv) (tid : Option Str) (urls : List Str) (k : Str) (t : Task),
      tasks.lookup k = some t →
      (video_callback tasks storage env tid urls).tasks.lookup k = some t ∨
        (tid = some k ∧ urls ≠ [] ∧
          ((video_callback tasks storage env tid urls).tasks.lookup k =
              some { t with status := .QUEUED_FOR_AI } ∨
           (video_callback tasks storage env tid urls).tasks.lookup k =
              some { t with status := .FAILED }))) ∧
    (∀ (uid : Str) (providerOk : Bool) (ptid : Option Str) (m : TaskMap) (rid : Str)
      (s : Status), generate_video tasks uid providerOk ptid = .ok (m, rid, s) →
      m.lookup rid = some { status := .QUEUED, user_id := uid } ∧ s = .QUEUED) := by
  refine ⟨?_, ?_, ?_⟩
  · intro listOk qid k t hk
    rcases get_status_tasks_eq tasks storage listOk qid with he | ⟨tq, hq, hF, he⟩
    · left
      rw [he, hk]
    · by_cases hkq : k = qid
      · subst hkq
        rw [hk] at hq
        injection hq with hq
        subst hq
        right
        exact ⟨rfl, hF, by simp [he, lookup_setStatus, hk]⟩
      · left
        simp [he, lookup_setStatus, hk, hkq]
  · intro env tid urls k t hk
    rcases tid with _ | tt
    · left
      have he := video_callback_tasks_eq tasks storage env none urls
      rw [he]
      exact hk
    · rcases hq : tasks.lookup tt with _ | tq
      · left
        have he := video_callback_tasks_eq tasks storage env (some tt) urls
        dsimp only at he
        rw [hq] at he
        rw [he]
        exact hk
      · have he := video_callback_tasks_eq tasks storage env (some tt) urls
        dsimp only at he
        rw [hq] at he
        by_cases hu : urls = []
        · left
          rw [he]
          simp [hu, hk]
        · by_cases hkq : tt = k
          · subst hkq
            right
            refine ⟨rfl, hu, ?_⟩
            by_cases hok : (env.downloadOk && env.uploadOk && env.publishOk) = true
            · left
              rw [he]
              simp [hu, hok, lookup_setStatus, hk]
            · right
              rw [he]
              simp [hu, hok, lookup_setStatus, hk]
          · left
            have hkq' : ¬k = tt := fun hh => hkq hh.symm
            by_cases hok : (env.downloadOk && env.uploadOk && env.publishOk) = true <;>
              · rw [he]
                simp [hu, hok, lookup_setStatus, hk, hkq']
  · intro uid providerOk ptid m rid s hgen
    unfold generate_video at hgen
    by_cases hp : providerOk = false
    · rw [if_pos hp] at hgen
      cases hgen
    · rw [if_neg hp] at hgen
      rcases ptid with _ | tid0
      · cases hgen
      · dsimp only at hgen
        by_cases h0 : tid0 = []
        · rw [if_pos h0] at hgen
          cases hgen
        · rw [if_neg h0] at hgen
          simp only [Except.ok.injEq, Prod.mk.injEq] at hgen
          obtain ⟨h1, h2, h3⟩ := hgen
          subst h1
          subst h2
          subst h3
          exact ⟨by simp [lookup_insertTask], rfl⟩

theorem status_transition_characterization_witness :
    (video_callback [(tidSample, taskDone)] [] envAllOk (some tidSample)
        [urlSample]).tasks.lookup tidSample = some taskDone ∨
      (some tidSample = some tidSample ∧ [urlSample] ≠ ([] : List Str) ∧
        ((video_callback [(tidSample, taskDone)] [] envAllOk (some tidSample)
            [urlSample]).tasks.lookup tidSample =
              some { taskDone with status := .QUEUED_FOR_AI } ∨
         (video_callback [(tidSample, taskDone)] [] envAllOk (some tidSample)
            [urlSample]).tasks.lookup tidSample =
              some { taskDone with status := .FAILED })) :=
  (status_transition_characterization [(tidSample, taskDone)] []).2.1 envAllOk
    (some tidSample) [urlSample] tidSample taskDone (by decide)

/-- C4 counterexample: video_callback has no idempotency guard — after a first
successful callback leaves the task QUEUED_FOR_AI (beyond QUEUED), a second
identical delivery publishes another post-processing job. -/
theorem second_callback_publishes_again :
    (video_callback [(tidSample, taskQueued)] [] envAllOk (some tidSample)
        [urlSample]).tasks.lookup tidSample = some taskQueuedAI ∧
    (video_callback
        (video_callback [(tidSample, taskQueued)] [] envAllOk (some tidSample)
          [urlSample]).tasks
        (video_callback [(tidSample, taskQueued)] [] envAllOk (some tidSample)
          [urlSample]).storage
        envAllOk (some tidSample) [urlSample]).published ≠ [] := by
  decide

/-- C4 (amended): HandleCallback performs no dedup or status guard: every
delivery for a known task with non-empty result urls in which download, upload
and publish all succeed publishes exactly one job, whatever the task's current
status — FAILED, QUEUED_FOR_AI and DONE included. -/
theorem callback_publishes_regardless_of_status (tasks : TaskMap) (storage : Storage)
    (tid : Str) (t : Task) (urls : List Str)
    (hlk : tasks.lookup tid = some t) (hurls : urls ≠ []) :
    (video_callback tasks storage envAllOk (some tid) urls).published =
      [{ task_id := tid, user_id := t.user_id,
         input_key := t.user_id ++ slash ++ tid ++ mp4Suffix,
         output_key := t.user_id ++ slash ++ tid ++ processedSuffix ++ mp4Suffix }] := by
  simp [video_callback, hlk, hurls, envAllOk]

theorem callback_publishes_regardless_of_status_witness :
    (video_callback [(tidSample, taskFailed)] [] envAllOk (some tidSample)
        [urlSample]).published =
      [{ task_id := tidSample, user_id := taskFailed.user_id,
         input_key := taskFailed.user_id ++ slash ++ tidSample ++ mp4Suffix,
         output_key := taskFailed.user_id ++ slash ++ tidSample ++ processedSuffix
           ++ mp4Suffix }] :=
  callback_publishes_regardless_of_status [(tidSample, taskFailed)] [] tidSample
    taskFailed [urlSample] (by decide) (by decide)

/-- C5 counterexample: on the thumbnail regeneration path a failing ffmpeg run
leaves both scratch files behind — the operation does not remove them on every
exit path. -/
theorem thumbnail_leaks_scratch :
    (get_thumbnail false true false true true).scratchCreated = true ∧
    (get_thumbnail false true false true true).scratchLeaked = true := by
  decide

/-- C5 (amended): callback processing and the YouTube upload remove their
scratch files on every exit path, but thumbnail regeneration removes its two
scratch files only when every regeneration step succeeds: any failure
propagates and leaves both scratch files behind. -/
theorem scratch_cleanup_characterization :
    (∀ (tasks : TaskMap) (storage : Storage) (env : CallbackEnv) (tid : Option Str)
      (urls : List Str),
      (video_callback tasks storage env tid urls).scratchLeaked = false) ∧
    (∀ (a b c d : Bool) (vid : Str),
      (upload_youtube a b c d vid).scratchLeaked = false) ∧
    (∀ te v f u t2 : Bool,
      (get_thumbnail te v f u t2).scratchLeaked = (!te && !(v && f && u && t2))) := by
  refine ⟨video_callback_no_scratch_leak, ?_, ?_⟩
  · intro a b c d vid
    cases a <;> cases b <;> cases c <;> cases d <;> rfl
  · intro te v f u t2
    cases te <;> cases v <;> cases f <;> cases u <;> cases t2 <;> rfl

/-- C7: code-bug evidence — for a stored naive expiry, get_youtube_service
computes the UTC-normalized expiry (tzinfo attached) but the credential it
builds and hands to the upload client carries expiry none, the constructor
default, because the Credentials call omits the expiry argument. -/
theorem get_youtube_service_drops_normalized_expiry :
    normalized_expiry naiveExpiryRow.expires_at =
      some { seconds := 100, tzinfo := some 0 } ∧
    get_youtube_service [("u7".data, naiveExpiryRow)] "cid".data "cs".data "u7".data =
      .ok { token := naiveExpiryRow.access_token,
            refresh_token := naiveExpiryRow.refresh_token,
            token_uri := GOOGLE_TOKEN_URL, client_id := "cid".data,
            client_secret := "cs".data, scopes := YOUTUBE_SCOPES, expiry := none } :=
  ⟨rfl, rfl⟩

/-- C9: insert_final_video is idempotent on video_key: starting from any table
satisfying the uniqueness invariant, inserting the same key twice leaves
exactly one matching row, and the duplicate insert is a success no-op, not an
error. -/
theorem insert_final_video_idempotent (table : List FinalVideoRow)
    (k u : Str) (t d : Option Str) (u' : Str) (t' d' : Option Str)
    (huniq : table.countP (fun r => r.video_key == k) ≤ 1) :
    ∃ T1, insert_final_video table true k u t d = .ok T1 ∧
      insert_final_video T1 true k u' t' d' = .ok T1 ∧
      T1.countP (fun r => r.video_key == k) = 1 := by
  by_cases h : table.any (fun r => r.video_key == k)
  · refine ⟨table, ?_, ?_, ?_⟩
    · simp [insert_final_video, h]
    · simp [insert_final_video, h]
    · have hpos : 0 < table.countP (fun r => r.video_key == k) := by
        rw [List.countP_pos_iff]
        rcases List.any_eq_true.mp h with ⟨r, hr, hrk⟩
        exact ⟨r, hr, hrk⟩
      omega
  · have hzero : table.countP (fun r => r.video_key == k) = 0 := by
      rw [List.countP_eq_zero]
      intro r hr hrk
      exact h (List.any_eq_true.mpr ⟨r, hr, hrk⟩)
    refine ⟨table ++ [{ video_key := k, user_id := u, title := t, description := d }],
      ?_, ?_, ?_⟩
    · simp [insert_final_video, h]
    · have h2 : (table ++
          [{ video_key := k, user_id := u, title := t,
             description := d : FinalVideoRow }]).any (fun r => r.video_key == k) = true := by
        simp [List.any_append]
      simp [insert_final_video, h2]
    · simp [List.countP_append, hzero]

theorem insert_final_video_idempotent_witness :
    ∃ T1, insert_final_video [] true tidSample uSample none none = .ok T1 ∧
      insert_final_video T1 true tidSample uSample none none = .ok T1 ∧
      T1.countP (fun r => r.video_key == tidSample) = 1 :=
  insert_final_video_idempotent [] tidSample uSample none none uSample none none
    (by decide)

/-- C10: entries are never removed from TASKS: generate_video registers the
provider's id as QUEUED for the caller and leaves every other entry intact,
while video_callback and get_status keep the key sequence identical and mutate
at most the status field of an existing entry, never its user_id, so a task
unknown to the map is one never submitted in this process's lifetime. -/
theorem task_map_never_shrinks (tasks : TaskMap) (storage : Storage) :
    (∀ (env : CallbackEnv) (tid : Option Str) (urls : List Str),
      (video_callback tasks storage env tid urls).tasks.map Prod.fst =
        tasks.map Prod.fst ∧
      ∀ k t, tasks.lookup k = some t →
        ∃ t', (video_callback tasks storage env tid urls).tasks.lookup k = some t' ∧
          t'.user_id = t.user_id) ∧
    (∀ (listOk : Bool) (qid : Str),
      (get_status tasks storage listOk qid).tasks.map Prod.fst = tasks.map Prod.fst ∧
      ∀ k t, tasks.lookup k = some t →
        ∃ t', (get_status tasks storage listOk qid).tasks.lookup k = some t' ∧
          t'.user_id = t.user_id) ∧
    (∀ (uid : Str) (providerOk : Bool) (ptid : Option Str) (m : TaskMap) (rid : Str)
      (s : Status), generate_video tasks uid providerOk ptid = .ok (m, rid, s) →
      m.lookup rid = some { status := .QUEUED, user_id := uid } ∧
      ∀ k t, tasks.lookup k = some t → k ≠ rid → m.lookup k = some t) := by
  refine ⟨?_, ?_, ?_⟩
  · intro env tid urls
    rcases video_callback_tasks_shape tasks storage env tid urls with he | ⟨tt, s, he⟩
    · rw [he]
      exact ⟨rfl, fun k t hk => ⟨t, hk, rfl⟩⟩
    · rw [he]
      exact ⟨keys_setStatus tasks tt s, fun k t hk => setStatus_preserves tasks tt s k t hk⟩
  · intro listOk qid
    rcases get_status_tasks_eq tasks storage listOk qid with he | ⟨tq, hq, hF, he⟩
    · rw [he]
      exact ⟨rfl, fun k t hk => ⟨t, hk, rfl⟩⟩
    · rw [he]
      exact ⟨keys_setStatus tasks qid .DONE,
        fun k t hk => setStatus_preserves tasks qid .DONE k t hk⟩
  · intro uid providerOk ptid m rid s hgen
    unfold generate_video at hgen
    by_cases hp : providerOk = false
    · rw [if_pos hp] at hgen
      cases hgen
    · rw [if_neg hp] at hgen
      rcases ptid with _ | tid0
      · cases hgen
      · dsimp only at hgen
        by_cases h0 : tid0 = []
        · rw [if_pos h0] at hgen
          cases hgen
        · rw [if_neg h0] at hgen
          simp only [Except.ok.injEq, Prod.mk.injEq] at hgen
          obtain ⟨h1, h2, h3⟩ := hgen
          subst h1
          subst h2
          refine ⟨by simp [lookup_insertTask], ?_⟩
          intro k t hk hkr
          rw [lookup_insertTask, if_neg hkr]
          exact hk

theorem task_map_never_shrinks_witness :
    ∃ t', (video_callback [(tidSample, taskQueued)] [] envAllOk (some tidSample)
        [urlSample]).tasks.lookup tidSample = some t' ∧
      t'.user_id = taskQueued.user_id :=
  ((task_map_never_shrinks [(tidSample, taskQueued)] []).1 envAllOk (some tidSample)
    [urlSample]).2 tidSample taskQueued (by decide)

end VideoApp
